import Mathlib

/-!
Verification of the run-lifecycle core of the bee-agent framework.

The authoritative source is `src/python/beeai_framework/agents/base.py`
(`BaseAgent`): its `run`, `destroy` and `meta` members are embedded below as
pure state-passing functions.  Collaborators whose code is not part of the
sources (`to_model` / `to_model_optional` from `utils/models.py`,
`RunContext.enter` from `context.py`, `Emitter` from the emitter module, and
the `AgentWorkflow` step collection exercised by
`tests/workflows/test_multi_agents.py`) are modelled from the specification;
each such definition carries a doc comment saying so.

A raised Python exception is modelled as the `.error` case of `Except`;
a normal return as `.ok`.  The asynchronous resolution of the returned `Run`
handle is collapsed into the call's total outcome.
-/

namespace BeeAI

/-- Python exceptions observable from `BaseAgent.run`.  `runtimeError msg`
is `RuntimeError(msg)`; `runtimeErrorFrom msg cause` is
`raise RuntimeError(msg) from cause` (the `__cause__` attribute holds the
original exception); `validationError` is the pydantic validation failure
raised by coercion; `otherError` is any other exception type. -/
inductive Exc where
  | runtimeError (msg : String)
  | runtimeErrorFrom (msg : String) (cause : Exc)
  | validationError (msg : String)
  | otherError (msg : String)
deriving Repr, DecidableEq

/-- `isinstance(e, RuntimeError)` (base.py line 30). -/
def Exc.isRuntimeError : Exc → Bool
  | .runtimeError _ => true
  | .runtimeErrorFrom _ _ => true
  | _ => false

/-- The re-entry error raised by the guard: `RuntimeError("Agent is already
running!")` (base.py line 21). -/
def concurrentRunError : Exc := .runtimeError "Agent is already running!"

/-- The generic wrapper: `raise RuntimeError("Error has occurred!") from e`
(base.py line 33). -/
def executionError (cause : Exc) : Exc :=
  .runtimeErrorFrom "Error has occurred!" cause

/-- A cancellation token (`AbortSignal`); only its identity matters here. -/
structure Signal where
  id : Nat
deriving Repr, DecidableEq

/-- The coerced run input (`BeeRunInput`): the structured prompt payload. -/
structure BeeRunInput where
  prompt : Option String
deriving Repr, DecidableEq

/-- Retry bounds of `RunOptions.executionPolicy`. -/
structure ExecutionPolicy where
  total_max_retries : Option Nat
  max_retries_per_step : Option Nat
  max_iterations : Option Nat
deriving Repr, DecidableEq

/-- The coerced run options (`BeeRunOptions`): optional cancellation signal
and execution policy. -/
structure BeeRunOptions where
  signal : Option Signal
  execution : Option ExecutionPolicy
deriving Repr, DecidableEq

/-- The result of one agent invocation (`BeeRunOutput`). -/
structure BeeRunOutput where
  result : String
deriving Repr, DecidableEq

/-- Modelled from the spec: the Event Bus (`Emitter`), a scoped
publish/subscribe channel holding registered listeners; `destroy()` releases
all listeners and makes the bus inert (spec section 4.2).  The emitter module
is not under src/. -/
structure Emitter where
  listeners : List String
  destroyed : Bool
deriving Repr, DecidableEq

/-- Modelled from the spec: `Emitter.destroy` releases all listeners;
idempotent (spec section 4.2). -/
def Emitter.destroy (_em : Emitter) : Emitter :=
  { listeners := [], destroyed := true }

/-- `RunInstance(emitter=...)` as constructed at base.py line 25. -/
structure RunInstance where
  emitter : Emitter

/-- `RunContextInput(signal=..., params=...)` as constructed at
base.py line 26. -/
structure RunContextInput where
  signal : Option Signal
  params : BeeRunInput × Option BeeRunOptions

/-- The run context handed to the work: exposes the event bus and the
cancellation signal (spec sections 2 and 4.1). -/
structure RunContext where
  emitter : Emitter
  signal : Option Signal
  params : BeeRunInput × Option BeeRunOptions

/-- Modelled from the spec: `RunContext.enter` (`context.py` is not under
src/).  Per spec section 4.1 it constructs a context exposing the event bus
and the cancellation signal and invokes the work with it; the outcome of the
work is the outcome of the call.  At the call site (base.py lines 24-28) it
receives only `RunInstance(emitter=...)` and a `RunContextInput`, so the
context is built from exactly those. -/
def RunContext.enter (inst : RunInstance) (input : RunContextInput)
    (fn : RunContext → Except Exc BeeRunOutput) : Except Exc BeeRunOutput :=
  fn { emitter := inst.emitter, signal := input.signal, params := input.params }

/-- A `ModelLike[BeeRunInput]` argument: either coercible to the expected
shape or not. -/
inductive RawInput where
  | valid (value : BeeRunInput)
  | invalid (msg : String)

/-- A `ModelLike[BeeRunOptions]` argument: either coercible or not. -/
inductive RawOptions where
  | valid (value : BeeRunOptions)
  | invalid (msg : String)

/-- Modelled from the spec: `to_model` (`utils/models.py` is not under src/)
coerces a model-like value to the expected shape and raises a
`ValidationError` when coercion is impossible (spec section 4.3). -/
def to_model (raw : RawInput) : Except Exc BeeRunInput :=
  match raw with
  | .valid v => .ok v
  | .invalid msg => .error (.validationError msg)

/-- Modelled from the spec: `to_model_optional` (`utils/models.py` is not
under src/); an absent value is permitted and yields `none`, a present value
is coerced like `to_model`. -/
def to_model_optional (raw : Option RawOptions) : Except Exc (Option BeeRunOptions) :=
  match raw with
  | none => .ok none
  | some (.valid v) => .ok (some v)
  | some (.invalid msg) => .error (.validationError msg)

/-- `options.signal if options else None` (base.py line 26). -/
def optSignal : Option BeeRunOptions → Option Signal
  | some o => o.signal
  | none => none

/-- The mutable state of a `BaseAgent` instance: the single-flight flag
(base.py line 13, class default `False`), the emitter (line 14) and the
concrete class name (`self.__class__.__name__`, used by `meta`). -/
structure BaseAgent where
  is_running : Bool
  emitter : Emitter
  className : String

/-- A fresh agent instance: the class attribute `is_running` defaults to
`False` (base.py line 13); the subclass supplies the emitter. -/
def BaseAgent.fresh (className : String) (em : Emitter) : BaseAgent :=
  { is_running := false, emitter := em, className := className }

/-- The abstract `_run` body (base.py line 38), opaque to the base class:
given the coerced input, the coerced options and the run context, it either
returns an output or raises an exception. -/
def WorkFn : Type :=
  BeeRunInput → Option BeeRunOptions → RunContext → Except Exc BeeRunOutput

/-- Embedding of `BaseAgent.run` (base.py lines 16-35).  In source order:
coerce `run_input` (line 17) and `options` (line 18) - a coercion failure
raises before anything else; the re-entry guard (lines 20-21) raises
`RuntimeError("Agent is already running!")` before the `try` block; the
`try` body calls `RunContext.enter` with the work (lines 24-28); `except`
re-raises a `RuntimeError` unchanged and wraps any other exception into
`RuntimeError("Error has occurred!") from e` (lines 29-33); `finally`
sets `is_running = False` (lines 34-35), which runs for every exit of the
`try` block but not for the raises that precede it.  The returned pair is
(call outcome, agent state after the call). -/
def BaseAgent.run (self : BaseAgent) (raw : RawInput) (rawOptions : Option RawOptions)
    (work : WorkFn) : Except Exc BeeRunOutput × BaseAgent :=
  match to_model raw with
  | .error e => (.error e, self)
  | .ok run_input =>
    match to_model_optional rawOptions with
    | .error e => (.error e, self)
    | .ok options =>
      if self.is_running then
        (.error concurrentRunError, self)
      else
        let body := RunContext.enter { emitter := self.emitter }
          { signal := optSignal options, params := (run_input, options) }
          (fun context => work run_input options context)
        let outcome : Except Exc BeeRunOutput :=
          match body with
          | .ok v => .ok v
          | .error e =>
            if e.isRuntimeError then .error e else .error (executionError e)
        (outcome, { self with is_running := false })

/-- Embedding of `BaseAgent.destroy` (base.py lines 41-42):
`self.emitter.destroy()`. -/
def BaseAgent.destroy (self : BaseAgent) : BaseAgent :=
  { self with emitter := self.emitter.destroy }

/-- The descriptive record `AgentMeta` (`agents/types.py`); tools are
identified by name. -/
structure AgentMeta where
  name : String
  description : String
  tools : List String
deriving Repr, DecidableEq

/-- Embedding of the `BaseAgent.meta` property (base.py lines 54-60), the
default used when the subclass does not override it. -/
def BaseAgent.meta (self : BaseAgent) : AgentMeta :=
  { name := self.className, description := "", tools := [] }

/-- The arguments of one `run` call, for reasoning about call sequences. -/
structure RunCall where
  raw : RawInput
  rawOptions : Option RawOptions
  work : WorkFn

/-- The agent state after a sequence of `run` calls. -/
def BaseAgent.runSeq (self : BaseAgent) : List RunCall → BaseAgent
  | [] => self
  | c :: rest => ((self.run c.raw c.rawOptions c.work).2).runSeq rest

/-- The agent states at entry of each `run` call in a sequence: the state
the re-entry guard of that call inspects. -/
def BaseAgent.entryStates (self : BaseAgent) : List RunCall → List BaseAgent
  | [] => []
  | c :: rest => self :: ((self.run c.raw c.rawOptions c.work).2).entryStates rest

/-- One message of the conversation threaded through a workflow. -/
abbrev Message := String

/-- Modelled from the spec: a workflow step is either a concrete agent
instance or a factory `(currentMemory) -> Agent` resolved at execution time
(spec sections 3 and 9). -/
inductive WorkflowStep where
  | concrete (agent : BaseAgent)
  | factory (make : List Message → BaseAgent)

/-- Modelled from the spec: the shared `WorkflowState` threaded through all
steps: evolving message history and a `finalAnswer` field (spec section 3). -/
structure WorkflowState where
  messages : List Message
  final_answer : Option String

/-- Modelled from the spec: the `AgentWorkflow` step collection
(`workflows/agent.py` is not under src/; only
`tests/workflows/test_multi_agents.py` exercises it).  Steps are stored in
an insertion-ordered mapping from unique names to step definitions
(spec section 3). -/
structure AgentWorkflow where
  steps : List (String × WorkflowStep)

/-- A workflow with no steps. -/
def AgentWorkflow.empty : AgentWorkflow := { steps := [] }

/-- `workflow.step_names`: the currently-present names in insertion order
(spec section 8). -/
def AgentWorkflow.step_names (w : AgentWorkflow) : List String :=
  w.steps.map Prod.fst

/-- The name-to-step mapping read off the ordered collection. -/
def AgentWorkflow.lookupStep (w : AgentWorkflow) (name : String) :
    Option WorkflowStep :=
  (w.steps.find? (fun p => p.1 == name)).map Prod.snd

/-- Modelled from the spec: `addStep` inserts or replaces the named step; a
brand-new name is appended at the end, an existing name is replaced in place
so all other names keep their order and replaced names retain their original
position (spec sections 4.4 and 8; `add_agent` in the tests). -/
def AgentWorkflow.add_agent (w : AgentWorkflow) (name : String)
    (s : WorkflowStep) : AgentWorkflow :=
  if w.steps.any (fun p => p.1 == name) then
    { steps := w.steps.map (fun p => if p.1 == name then (name, s) else p) }
  else
    { steps := w.steps ++ [(name, s)] }

/-- Modelled from the spec: `deleteStep` removes the named step from both
the order and the mapping (spec section 3; `del_agent` in the tests). -/
def AgentWorkflow.del_agent (w : AgentWorkflow) (name : String) :
    AgentWorkflow :=
  { steps := w.steps.filter (fun p => p.1 != name) }

/-- Modelled from the spec: one step execution folds its result into the
shared state; the actual computation is opaque to this core, so it is a
parameter `stepSem` of the run (spec sections 1 and 4.4). -/
def StepSem : Type := String → WorkflowStep → WorkflowState → WorkflowState

/-- Modelled from the spec: `AgentWorkflow.run` executes all current steps
strictly in their stored insertion order against one shared state seeded
from the initial messages, threading the state from step to step
(spec section 4.4).  Returns the executed step names in execution order
together with the final state; retries and cancellation are outside this
model. -/
def AgentWorkflow.run (w : AgentWorkflow) (stepSem : StepSem)
    (initial : List Message) : List String × WorkflowState :=
  w.steps.foldl
    (fun acc p => (acc.1 ++ [p.1], stepSem p.1 p.2 acc.2))
    ([], { messages := initial, final_answer := none })

/-! ### Path lemmas for `BaseAgent.run` -/

/-- The run context built inside `run` for coerced input `i` and options
`o` on agent `self` (base.py lines 24-26). -/
def builtContext (self : BaseAgent) (i : BeeRunInput)
    (o : Option BeeRunOptions) : RunContext :=
  { emitter := self.emitter, signal := optSignal o, params := (i, o) }

/-- Normalization applied by the `except` clause (base.py lines 29-33). -/
def normalizeOutcome (body : Except Exc BeeRunOutput) : Except Exc BeeRunOutput :=
  match body with
  | .ok v => .ok v
  | .error e => if e.isRuntimeError then .error e else .error (executionError e)

theorem run_input_coerce_error (self : BaseAgent) (raw : RawInput)
    (ro : Option RawOptions) (w : WorkFn) (e : Exc)
    (h : to_model raw = .error e) :
    self.run raw ro w = (.error e, self) := by
  simp only [BaseAgent.run, h]

theorem run_options_coerce_error (self : BaseAgent) (raw : RawInput)
    (ro : Option RawOptions) (w : WorkFn) (i : BeeRunInput) (e : Exc)
    (hi : to_model raw = .ok i) (ho : to_model_optional ro = .error e) :
    self.run raw ro w = (.error e, self) := by
  simp only [BaseAgent.run, hi, ho]

theorem run_guard_rejects (self : BaseAgent) (raw : RawInput)
    (ro : Option RawOptions) (w : WorkFn) (i : BeeRunInput)
    (o : Option BeeRunOptions)
    (hi : to_model raw = .ok i) (ho : to_model_optional ro = .ok o)
    (hr : self.is_running = true) :
    self.run raw ro w = (.error concurrentRunError, self) := by
  simp only [BaseAgent.run, hi, ho, hr, if_true]

theorem run_normal_path (self : BaseAgent) (raw : RawInput)
    (ro : Option RawOptions) (w : WorkFn) (i : BeeRunInput)
    (o : Option BeeRunOptions)
    (hi : to_model raw = .ok i) (ho : to_model_optional ro = .ok o)
    (hr : self.is_running = false) :
    self.run raw ro w =
      (normalizeOutcome (w i o (builtContext self i o)),
        { self with is_running := false }) := by
  simp only [BaseAgent.run, hi, ho, hr, if_false, RunContext.enter,
    normalizeOutcome, builtContext, Bool.false_eq_true]

/-- The state after any `run` call is either the entry state (a raise before
the `try` block) or the entry state with the flag cleared by `finally`:
`run` never writes `true` into `is_running`. -/
theorem run_state_cases (self : BaseAgent) (raw : RawInput)
    (ro : Option RawOptions) (w : WorkFn) :
    (self.run raw ro w).2 = self ∨
      (self.run raw ro w).2 = { self with is_running := false } := by
  cases raw with
  | invalid msg =>
    left
    simp [run_input_coerce_error, to_model]
  | valid v =>
    cases ho : to_model_optional ro with
    | error e =>
      left
      rw [run_options_coerce_error self (RawInput.valid v) ro w v e rfl ho]
    | ok o =>
      cases hr : self.is_running with
      | true =>
        left
        rw [run_guard_rejects self (RawInput.valid v) ro w v o rfl ho hr]
      | false =>
        right
        rw [run_normal_path self (RawInput.valid v) ro w v o rfl ho hr]

/-- If the agent is not running at entry, it is not running after the call,
whichever path the call took. -/
theorem run_preserves_not_running (self : BaseAgent) (raw : RawInput)
    (ro : Option RawOptions) (w : WorkFn) (h : self.is_running = false) :
    (self.run raw ro w).2.is_running = false := by
  rcases run_state_cases self raw ro w with hc | hc <;> rw [hc]
  · exact h

theorem runSeq_preserves_not_running (calls : List RunCall) :
    ∀ self : BaseAgent, self.is_running = false →
      (self.runSeq calls).is_running = false := by
  induction calls with
  | nil => intro self h; exact h
  | cons c rest ih =>
    intro self h
    exact ih _ (run_preserves_not_running self c.raw c.rawOptions c.work h)

theorem entryStates_not_running (calls : List RunCall) :
    ∀ self : BaseAgent, self.is_running = false →
      ∀ s ∈ self.entryStates calls, s.is_running = false := by
  induction calls with
  | nil => intro self _ s hs; simp [BaseAgent.entryStates] at hs
  | cons c rest ih =>
    intro self h s hs
    simp only [BaseAgent.entryStates, List.mem_cons] at hs
    rcases hs with rfl | hs
    · exact h
    · exact ih _ (run_preserves_not_running self c.raw c.rawOptions c.work h) s hs

/-! ### Workflow lemmas -/

theorem workflow_foldl_fst (steps : List (String × WorkflowStep))
    (sem : StepSem) (acc : List String × WorkflowState) :
    (steps.foldl (fun acc p => (acc.1 ++ [p.1], sem p.1 p.2 acc.2)) acc).1 =
      acc.1 ++ steps.map Prod.fst := by
  induction steps generalizing acc with
  | nil => simp
  | cons p rest ih => simp [List.foldl_cons, ih]

theorem run_order_eq_step_names (w : AgentWorkflow) (sem : StepSem)
    (initial : List Message) :
    (w.run sem initial).1 = w.step_names := by
  simp [AgentWorkflow.run, AgentWorkflow.step_names, workflow_foldl_fst]

theorem del_agent_not_mem (w : AgentWorkflow) (name : String) :
    name ∉ (w.del_agent name).step_names := by
  intro h
  simp only [AgentWorkflow.del_agent, AgentWorkflow.step_names, List.mem_map,
    List.mem_filter] at h
  obtain ⟨p, ⟨_, hne⟩, hfst⟩ := h
  rw [hfst] at hne
  simp at hne

theorem del_agent_lookup_none (w : AgentWorkflow) (name : String) :
    (w.del_agent name).lookupStep name = none := by
  have h : List.find? (fun p => p.1 == name)
      (List.filter (fun p => p.1 != name) w.steps) = none := by
    rw [List.find?_eq_none]
    intro p hp
    have hne := (List.mem_filter.mp hp).2
    simp only [bne_iff_ne, ne_eq] at hne
    simp [hne]
  simp [AgentWorkflow.del_agent, AgentWorkflow.lookupStep, h]

/-! ### Concrete fixtures -/

/-- A live emitter with no listeners. -/
def em0 : Emitter := { listeners := [], destroyed := false }

/-- A concrete coerced run input. -/
def input0 : BeeRunInput := { prompt := some "How is the weather in White Plains?" }

/-- Concrete run options with no signal and no policy. -/
def opts0 : BeeRunOptions := { signal := none, execution := none }

/-- A work body that returns normally. -/
def okWork : WorkFn := fun _ _ _ => .ok { result := "done" }

/-- A work body that raises a `RuntimeError` that is not the re-entry
error. -/
def boomWork : WorkFn := fun _ _ _ => .error (.runtimeError "boom")

/-- A work body that raises a non-`RuntimeError` exception. -/
def oopsWork : WorkFn := fun _ _ _ => .error (.otherError "oops")

/-- A fresh concrete agent. -/
def agent0 : BaseAgent := BaseAgent.fresh "BeeAgent" em0

/-- An agent whose flag is already `true` (as a subclass or a caller could
leave it). -/
def runningAgent : BaseAgent :=
  { is_running := true, emitter := em0, className := "BeeAgent" }

/-- A concrete run call. -/
def call0 : RunCall :=
  { raw := RawInput.valid input0, rawOptions := none, work := okWork }

/-- A concrete workflow step. -/
def stepA : WorkflowStep := WorkflowStep.concrete agent0

/-- Another concrete workflow step. -/
def stepB : WorkflowStep :=
  WorkflowStep.factory (fun _ => BaseAgent.fresh "ReActAgent" em0)

/-- A step semantics that appends the executed step name to the messages. -/
def sem0 : StepSem := fun name _ st =>
  { st with messages := st.messages ++ [name] }

/-! ### Claim theorems -/

/-- C1: a `run` call made while `is_running` is `true` (with both arguments
coercible) fails with the concurrent-run error
`RuntimeError("Agent is already running!")`, and the run context is never
entered for that rejected call: the call's outcome and resulting state are
independent of the work. -/
theorem run_concurrent_rejected_never_enters (self : BaseAgent)
    (raw : RawInput) (ro : Option RawOptions) (w : WorkFn) (i : BeeRunInput)
    (o : Option BeeRunOptions)
    (hi : to_model raw = .ok i) (ho : to_model_optional ro = .ok o)
    (hr : self.is_running = true) :
    (self.run raw ro w).1 = .error concurrentRunError ∧
      ∀ w' : WorkFn, self.run raw ro w' = self.run raw ro w := by
  constructor
  · rw [run_guard_rejects self raw ro w i o hi ho hr]
  · intro w'
    rw [run_guard_rejects self raw ro w i o hi ho hr,
      run_guard_rejects self raw ro w' i o hi ho hr]

/-- Witness for C1 at a concrete already-running agent. -/
theorem run_concurrent_rejected_never_enters_witness :
    (runningAgent.run (RawInput.valid input0) none okWork).1 =
      .error concurrentRunError :=
  (run_concurrent_rejected_never_enters runningAgent (RawInput.valid input0)
    none okWork input0 none rfl rfl rfl).1

/-- C2 (evidence for the code bug): `run` never assigns `true` to
`is_running`.  Starting from a non-running agent, the flag is still `false`
after the call, and on every path the resulting state is either the entry
state unmodified or the entry state with the flag written `false` - there is
no point at which the flag is set to `true` before the work begins. -/
theorem run_flag_never_becomes_true (self : BaseAgent) (raw : RawInput)
    (ro : Option RawOptions) (w : WorkFn) (h : self.is_running = false) :
    (self.run raw ro w).2.is_running = false ∧
      ((self.run raw ro w).2 = self ∨
        (self.run raw ro w).2 = { self with is_running := false }) :=
  ⟨run_preserves_not_running self raw ro w h, run_state_cases self raw ro w⟩

/-- Witness for C2's evidence theorem at a fresh agent and normal work. -/
theorem run_flag_never_becomes_true_witness :
    ((agent0.run (RawInput.valid input0) none okWork).2).is_running = false :=
  (run_flag_never_becomes_true agent0 (RawInput.valid input0) none okWork rfl).1

/-- C3: `is_running` is `false` on a fresh instance before the first `run`
call, and after any sequence of `run` calls on that instance - whatever each
call returned or raised - it is `false` again. -/
theorem fresh_not_running_and_always_reset (name : String) (em : Emitter)
    (calls : List RunCall) :
    (BaseAgent.fresh name em).is_running = false ∧
      ((BaseAgent.fresh name em).runSeq calls).is_running = false :=
  ⟨rfl, runSeq_preserves_not_running calls _ rfl⟩

/-- Counterexample to C4 as stated: on a fresh agent, a work body raising
`RuntimeError("boom")` - which is not the re-entry error - propagates
unwrapped instead of being wrapped into the generic execution error with the
original as cause. -/
theorem run_wrap_counterexample :
    (agent0.run (RawInput.valid input0) none boomWork).1 =
        .error (.runtimeError "boom") ∧
      (agent0.run (RawInput.valid input0) none boomWork).1 ≠
        .error (executionError (.runtimeError "boom")) ∧
      Exc.runtimeError "boom" ≠ concurrentRunError := by
  refine ⟨rfl, ?_, by decide⟩
  show (Except.error (Exc.runtimeError "boom") : Except Exc BeeRunOutput) ≠
    Except.error (executionError (Exc.runtimeError "boom"))
  simp [executionError]

/-- C4 amended: an error raised while entering or performing the work that
is a `RuntimeError` - the type of the re-entry error - propagates to the
caller unwrapped and unchanged; any non-`RuntimeError` error is wrapped into
`RuntimeError("Error has occurred!")` carrying the original exception as its
cause. -/
theorem run_error_normalization (self : BaseAgent) (raw : RawInput)
    (ro : Option RawOptions) (w : WorkFn) (i : BeeRunInput)
    (o : Option BeeRunOptions) (e : Exc)
    (hi : to_model raw = .ok i) (ho : to_model_optional ro = .ok o)
    (hr : self.is_running = false)
    (hw : w i o (builtContext self i o) = .error e) :
    (e.isRuntimeError = true → (self.run raw ro w).1 = .error e) ∧
      (e.isRuntimeError = false →
        (self.run raw ro w).1 = .error (executionError e)) := by
  rw [run_normal_path self raw ro w i o hi ho hr]
  constructor <;> intro he <;> simp [normalizeOutcome, hw, he]

/-- Witness for C4's amended theorem: a non-`RuntimeError` gets wrapped with
its cause. -/
theorem run_error_normalization_witness :
    (agent0.run (RawInput.valid input0) none oopsWork).1 =
      .error (executionError (.otherError "oops")) :=
  (run_error_normalization agent0 (RawInput.valid input0) none oopsWork
    input0 none (.otherError "oops") rfl rfl rfl rfl).2 rfl

/-- C5: when coercion of the input (or of present options) is impossible,
`run` fails with that `ValidationError` immediately: the outcome is the
validation error itself for every agent state (so before the re-entry check)
and for every work body (so before any run context is entered), and the
agent's state is returned unchanged. -/
theorem run_validation_fails_fast (raw : RawInput) (ro : Option RawOptions)
    (e : Exc)
    (h : to_model raw = .error e ∨
      ∃ i, to_model raw = .ok i ∧ to_model_optional ro = .error e) :
    (∃ msg, e = .validationError msg) ∧
      ∀ (self : BaseAgent) (w : WorkFn), self.run raw ro w = (.error e, self) := by
  rcases h with h | ⟨i, hi, ho⟩
  · refine ⟨?_, fun self w => run_input_coerce_error self raw ro w e h⟩
    cases raw with
    | valid v => simp [to_model] at h
    | invalid msg =>
      simp only [to_model, Except.error.injEq] at h
      exact ⟨msg, h.symm⟩
  · refine ⟨?_, fun self w => run_options_coerce_error self raw ro w i e hi ho⟩
    match ro with
    | none => simp [to_model_optional] at ho
    | some (.valid v) => simp [to_model_optional] at ho
    | some (.invalid msg) =>
      simp only [to_model_optional, Except.error.injEq] at ho
      exact ⟨msg, ho.symm⟩

/-- Witness for C5 at a concrete uncoercible input on an already-running
agent: the validation error surfaces and the state is untouched. -/
theorem run_validation_fails_fast_witness :
    runningAgent.run (RawInput.invalid "bad") none okWork =
      (.error (.validationError "bad"), runningAgent) :=
  (run_validation_fails_fast (RawInput.invalid "bad") none
    (.validationError "bad") (Or.inl rfl)).2 runningAgent okWork

/-- C6: the default `meta` property returns a record whose name is the
agent's concrete class name, whose description is empty and whose tool list
is empty. -/
theorem meta_default (self : BaseAgent) :
    (self.meta).name = self.className ∧ (self.meta).description = "" ∧
      (self.meta).tools = [] :=
  ⟨rfl, rfl, rfl⟩

/-- C7: deleting a named step removes that name from both the insertion
order and the name-to-step mapping, and a subsequent run executes exactly
the remaining step names in order; concretely, deleting the only step and
adding one new step leaves exactly one step name, and deleting "X" from a
workflow with steps X, Y makes a run execute only "Y". -/
theorem del_agent_removes_everywhere :
    (∀ (w : AgentWorkflow) (name : String) (sem : StepSem)
        (initial : List Message),
      name ∉ (w.del_agent name).step_names ∧
        (w.del_agent name).lookupStep name = none ∧
        ((w.del_agent name).run sem initial).1 = (w.del_agent name).step_names) ∧
      ((((AgentWorkflow.empty.add_agent "ReAct" stepA).del_agent
          "ReAct").add_agent "ReAct" stepB).step_names = ["ReAct"] ∧
        ((((AgentWorkflow.empty.add_agent "X" stepA).add_agent "Y"
            stepB).del_agent "X").run sem0 []).1 = ["Y"]) := by
  refine ⟨fun w name sem initial =>
    ⟨del_agent_not_mem w name, del_agent_lookup_none w name,
      run_order_eq_step_names _ sem initial⟩, ?_, ?_⟩ <;> rfl

/-- C8: `destroy` releases the agent's event-bus resources (all listeners
released, the bus made inert) and is idempotent - destroying twice yields
the same state as destroying once - and it does not touch the `is_running`
flag, so it is safe whether or not a run is in progress. -/
theorem destroy_idempotent_and_safe (self : BaseAgent) :
    self.destroy.destroy = self.destroy ∧
      self.destroy.emitter.listeners = [] ∧
      self.destroy.emitter.destroyed = true ∧
      self.destroy.is_running = self.is_running :=
  ⟨rfl, rfl, rfl, rfl⟩

/-- C9: `run` only ever writes `false` into `is_running` (each call leaves
the state untouched or clears the flag), so along any sequence of `run`
calls starting not-running, the state inspected by every call's re-entry
guard has `is_running = false` - the guard never fires - and the flag is
`false` at the end. -/
theorem run_only_writes_false (self : BaseAgent) (calls : List RunCall)
    (h : self.is_running = false) :
    (∀ (raw : RawInput) (ro : Option RawOptions) (w : WorkFn),
        (self.run raw ro w).2 = self ∨
          (self.run raw ro w).2 = { self with is_running := false }) ∧
      (∀ s ∈ self.entryStates calls, s.is_running = false) ∧
      (self.runSeq calls).is_running = false :=
  ⟨fun raw ro w => run_state_cases self raw ro w,
    entryStates_not_running calls self h,
    runSeq_preserves_not_running calls self h⟩

/-- Witness for C9: after two consecutive calls on a fresh agent the flag is
still `false`. -/
theorem run_only_writes_false_witness :
    (agent0.runSeq [call0, call0]).is_running = false :=
  (run_only_writes_false agent0 [call0, call0] rfl).2.2

/-- C10: a `run` call rejected by the re-entry guard (flag `true`, both
arguments coercible) raises before the `try`/`finally` block, so the
returned agent state is exactly the entry state: `is_running` is still
`true` and nothing else changed. -/
theorem run_concurrent_rejected_state_unchanged (self : BaseAgent)
    (raw : RawInput) (ro : Option RawOptions) (w : WorkFn) (i : BeeRunInput)
    (o : Option BeeRunOptions)
    (hi : to_model raw = .ok i) (ho : to_model_optional ro = .ok o)
    (hr : self.is_running = true) :
    (self.run raw ro w).2 = self := by
  rw [run_guard_rejects self raw ro w i o hi ho hr]

/-- Witness for C10 at a concrete already-running agent with present
options. -/
theorem run_concurrent_rejected_state_unchanged_witness :
    (runningAgent.run (RawInput.valid input0)
      (some (RawOptions.valid opts0)) oopsWork).2 = runningAgent :=
  run_concurrent_rejected_state_unchanged runningAgent (RawInput.valid input0)
    (some (RawOptions.valid opts0)) oopsWork input0 (some opts0) rfl rfl rfl

end BeeAI
